import Mathlib

/-!
A shallow embedding of `mzident_writer/writer.py` (the MzIdentML incremental
document writer) and proofs about its operations.

Python values passed by callers are modelled by the inductive `PyVal`;
schema entities built by the (external) component catalogue are modelled by
`Entity`; each public operation of `MzIdentMLWriter` is a Lean function from
the writer state and its `PyVal` arguments to the updated state together with
an `Except` describing either the emitted XML elements or the raised error.
-/

/-- A Python value, as far as the writer's argument handling observes it:
`None`, booleans, integers, strings, lists, tuples and mappings (dicts,
represented as key/value association lists in insertion order). -/
inductive PyVal where
  | none : PyVal
  | bool (b : Bool) : PyVal
  | int (n : Int) : PyVal
  | str (s : String) : PyVal
  | list (xs : List PyVal) : PyVal
  | tuple (xs : List PyVal) : PyVal
  | mapping (kvs : List (String × PyVal)) : PyVal

/-- `isinstance(obj, Iterable)`: strings, mappings, lists and tuples are
iterable; `None`, booleans and integers are not. -/
def pyIsIterable : PyVal → Bool
  | .str _ => true
  | .mapping _ => true
  | .list _ => true
  | .tuple _ => true
  | _ => false

/-- `isinstance(obj, basestring)`. -/
def pyIsString : PyVal → Bool
  | .str _ => true
  | _ => false

/-- `isinstance(obj, Mapping)`. -/
def pyIsMapping : PyVal → Bool
  | .mapping _ => true
  | _ => false

/-- `isinstance(obj, (list, tuple))`, the check used for tolerance values. -/
def pyIsListOrTuple : PyVal → Bool
  | .list _ => true
  | .tuple _ => true
  | _ => false

/-- Python truthiness of a value (`bool(obj)`). -/
def pyTruthy : PyVal → Bool
  | .none => false
  | .bool b => b
  | .int n => decide (n ≠ 0)
  | .str s => !s.isEmpty
  | .list xs => !xs.isEmpty
  | .tuple xs => !xs.isEmpty
  | .mapping kvs => !kvs.isEmpty

/-- Python's `a or b`. -/
def pyOr (a b : PyVal) : PyVal :=
  if pyTruthy a then a else b

/-- The item sequence obtained by iterating a Python value (`iter(obj)`):
lists and tuples yield their elements, strings their one-character substrings,
mappings their keys; non-iterables raise `TypeError` (modelled as `none`). -/
def pyIter : PyVal → Option (List PyVal)
  | .str s => some (s.data.map fun c => .str (String.mk [c]))
  | .mapping kvs => some (kvs.map fun kv => .str kv.1)
  | .list xs => some xs
  | .tuple xs => some xs
  | _ => none

/-- `ensure_iterable` (writer.py lines 13-16): a non-iterable, a string or a
mapping is wrapped into a one-element list; any other iterable is returned
unchanged. -/
def ensure_iterable (obj : PyVal) : PyVal :=
  if !pyIsIterable obj || pyIsString obj || pyIsMapping obj then .list [obj]
  else obj

/-- The item sequence a section operation loops over after normalising an
argument with `ensure_iterable` (`for s in ensure_iterable(arg)`). -/
def normItems (obj : PyVal) : List PyVal :=
  (pyIter (ensure_iterable obj)).getD []

/-- The keyword-argument mapping produced by `**(s or {})`: a falsy `s`
is replaced by the empty dict; expanding a non-mapping raises `TypeError`. -/
def expandKwargs (s : PyVal) : Option (List (String × PyVal)) :=
  match pyOr s (.mapping []) with
  | .mapping kvs => some kvs
  | _ => none

/-- The errors the embedded operations can raise.  `notReady` is the dedicated
`ValueError("This writer has not yet been created. ...")` of `XMLWriterMixin`;
the spec's taxonomy calls it `NotReadyError`. -/
inductive PyError where
  | notReady
  | scopeViolation
  | typeError
  | attributeError
deriving DecidableEq

/-- A schema entity built by one of the component constructors.  The
constructors themselves live in the external `components` module (out of
scope per the spec: "data-shape-to-tag mappings with no algorithmic
content"), so an entity records its tag and the keyword arguments it was
constructed from; `contact` additionally records the id resolved for a
Person/Organization, and the protocol's special-cased entities record their
positional arguments. -/
inductive Entity where
  | generic (tag : String) (kwargs : List (String × PyVal))
  | contact (tag : String) (id : PyVal) (kwargs : List (String × PyVal))
  | fragTol (args : List PyVal)
  | parTol (args : List PyVal)
  | threshold (value : PyVal)

/-- The id carried by a contact entity. -/
def Entity.idOf : Entity → PyVal
  | .contact _ i _ => i
  | _ => .none

/-- Map a fallible constructor over a list, failing on the first failure
(the semantics of a Python list comprehension whose body may raise). -/
def listMapO (f : α → Option β) : List α → Option (List β)
  | [] => some []
  | x :: xs =>
    match f x, listMapO f xs with
    | some y, some ys => some (y :: ys)
    | _, _ => none

/-- `self.Tag(**(s or {}))` for a plain component constructor: expand the
(possibly falsy) item into keyword arguments and record them on the entity. -/
def buildEntity (tag : String) (s : PyVal) : Option Entity :=
  (expandKwargs s).map fun kvs => .generic tag kvs

/-- The entity list `[self.Tag(**(s or {})) for s in ensure_iterable(arg)]`. -/
def buildItems (tag : String) (arg : PyVal) : Option (List Entity) :=
  listMapO (buildEntity tag) (normItems arg)

/-- Modelled from the spec: the Identity Registry's per-type counters
("a fresh monotonically increasing ID scoped to `entity_type` is minted"
when no key is supplied).  The component catalogue holding the real id
machinery is not part of the sources. -/
structure Registry where
  counters : List (String × Nat)

/-- Modelled from the spec: mint a fresh id for an entity type. -/
def Registry.mint (r : Registry) (ty : String) : Nat × Registry :=
  let n := ((r.counters.lookup ty).getD 0) + 1
  (n, ⟨(ty, n) :: r.counters⟩)

/-- Modelled from the spec: constructing a Person/Organization component
resolves its id through the Identity Registry — a caller-supplied `id`
keyword is used as the key (idempotent lookup), an omitted `id` mints a
fresh per-type id string. -/
def mkContact (tag : String) (r : Registry) (kwargs : List (String × PyVal)) :
    Entity × Registry :=
  match kwargs.lookup "id" with
  | some v => (.contact tag v kwargs, r)
  | none =>
    let (n, r') := r.mint tag
    (.contact tag (.str (tag ++ toString n)) kwargs, r')

/-- The state of an `MzIdentMLWriter` (writer.py lines 105-127): whether
`self.writer` has been created (`_begin` ran), whether the incremental
xmlfile context and root element are still open, whether the output sink is
still open, the session's running vocabulary list and the identity
registry. -/
structure MzWriter where
  writerSet : Bool
  sinkOpen : Bool
  outfileOpen : Bool
  vocabularies : List PyVal
  registry : Registry

/-- `MzIdentMLWriter.__init__`: the writer starts unset (`self.writer =
None`), the sink open but the xmlfile context not yet entered, with the
initial vocabulary list handed to the component dispatcher. -/
def MzIdentMLWriter_init (vocabularies : List PyVal) : MzWriter :=
  ⟨false, false, true, vocabularies, ⟨[]⟩⟩

/-- `MzIdentMLWriter.__enter__`: `_begin` creates `self.writer` from the
xmlfile context and the root `MzIdentML` element is opened. -/
def MzWriter.enter (w : MzWriter) : MzWriter :=
  { w with writerSet := true, sinkOpen := true }

/-- The state after a successful `MzIdentMLWriter.__exit__`: the root
element and xmlfile context are closed and the sink released; `self.writer`
is never reset to `None`. -/
def MzWriter.exitOk (w : MzWriter) : MzWriter :=
  { w with sinkOpen := false, outfileOpen := false }

/-- Modelled from the spec: the underlying incremental writer's raw `write`.
Calling through a `None` writer raises `AttributeError`; once the sink/scope
has been closed, writing raises the serializer's after-close error (the
spec's `ScopeViolationError`). -/
def rawWriterWrite (w : MzWriter) : Except PyError Unit :=
  if !w.writerSet then .error .attributeError
  else if !w.sinkOpen then .error .scopeViolation
  else .ok ()

/-- `XMLWriterMixin.write` (writer.py lines 43-54): `self.writer.write(...)`
with `AttributeError` caught and replaced by the dedicated not-ready
`ValueError` exactly when `self.writer is None`. -/
def XMLWriterMixin_write (w : MzWriter) : Except PyError Unit :=
  match rawWriterWrite w with
  | .error .attributeError =>
    if !w.writerSet then .error .notReady else .error .attributeError
  | r => r

/-- `XMLWriterMixin.element` (writer.py lines 24-41): opening a named child
element, with the same `AttributeError`-to-not-ready conversion. -/
def XMLWriterMixin_element (w : MzWriter) (element_name : String) :
    Except PyError Unit :=
  match element_name, rawWriterWrite w with
  | _, .error .attributeError =>
    if !w.writerSet then .error .notReady else .error .attributeError
  | _, r => r

/-- Modelled from the spec: a pre-built component's `.write(writer)` — "any
write or open/close attempted before the session has been started (sink not
yet acquired) fails with a `NotReadyError`"; "a scope may not be written to
after it is closed" (`ScopeViolationError`). -/
def componentWrite (w : MzWriter) : Except PyError Unit :=
  if !w.writerSet then .error .notReady
  else if !w.sinkOpen then .error .scopeViolation
  else .ok ()

/-- A tolerance field of the protocol element: either the caller's value
passed through unchanged, or an entity built positionally from a list or
tuple argument (writer.py lines 180-183). -/
inductive TolField where
  | raw (v : PyVal)
  | built (e : Entity)

/-- `if isinstance(x, (list, tuple)): x = self.SomeTolerance(*x)`: a list or
tuple is turned into the entity built positionally from its elements; any
other value is passed through unchanged. -/
def mkTolerance (build : List PyVal → Entity) (v : PyVal) : TolField :=
  match v with
  | .list xs => .built (build xs)
  | .tuple xs => .built (build xs)
  | v => .raw v

/-- The fields of a `SpectrumIdentificationItem` as constructed by
`MzIdentMLWriter._spectrum_identification_item` (writer.py lines 202-208). -/
structure SIIData where
  calculated_mass_to_charge : PyVal
  experimental_mass_to_charge : PyVal
  charge_state : PyVal
  peptide_id : PyVal
  peptide_evidence_id : PyVal
  score : PyVal
  id : PyVal
  cv_params : PyVal
  pass_threshold : PyVal
  rank : PyVal

/-- The fields of a `SpectrumIdentificationResult` as constructed by
`MzIdentMLWriter._spectrum_identification_result` (writer.py lines 194-200). -/
structure SIRData where
  spectra_data_id : PyVal
  spectrum_id : PyVal
  id : PyVal
  identifications : List SIIData

/-- The XML elements the section operations emit (each is one top-level
`.write(self.writer)` of a pre-built component tree). -/
inductive Emit where
  | cvList (vocabularies : List PyVal)
  | genericCollection (tag : String) (members : List Entity)
  | provider (contact : PyVal)
  | auditCollection (persons : List Entity) (organizations : List Entity)
  | inputsColl (source_files : List Entity) (search_databases : List Entity)
      (spectra_data : List Entity)
  | sequenceColl (db_sequences : List Entity) (peptides : List Entity)
      (peptide_evidence : List Entity)
  | protocolE (search_type : PyVal) (analysis_software_id : PyVal) (id : PyVal)
      (additional_search_params : PyVal) (enzymes : List Entity)
      (modification_params : List Entity) (fragment_tolerance : TolField)
      (parent_tolerance : TolField) (threshold : Entity)
  | specIdentList (id : PyVal) (results : List SIRData)

/-- `MzIdentMLWriter.controlled_vocabularies` (writer.py lines 129-135):
`None` becomes the empty list, the argument's items are appended to the
session's vocabulary list (`self.vocabularies.extend`), and a `CVList`
holding the whole cumulative list is written. -/
def controlled_vocabularies (w : MzWriter) (vocabularies : PyVal) :
    MzWriter × Except PyError Emit :=
  let vs : PyVal :=
    match vocabularies with
    | .none => .list []
    | v => v
  match pyIter vs with
  | none => (w, .error .typeError)
  | some items =>
    let w' := { w with vocabularies := w.vocabularies ++ items }
    (w', (componentWrite w').map fun _ => .cvList w'.vocabularies)

/-- `MzIdentMLWriter.providence` (writer.py lines 136-159): builds the
software entities from the normalised `software` argument, a Person from
`owner or {}` and an Organization from `organization or {}`, then writes an
`AnalysisSoftwareList` collection, a `Provider` whose `contact` is the
owner's id, and an `AuditCollection` nesting the owner and organization. -/
def providence (w : MzWriter) (software owner organization : PyVal) :
    MzWriter × Except PyError (List Emit) :=
  match buildItems "AnalysisSoftware" software with
  | none => (w, .error .typeError)
  | some softwareEnts =>
    match expandKwargs owner with
    | none => (w, .error .typeError)
    | some ownerKw =>
      match expandKwargs organization with
      | none => (w, .error .typeError)
      | some orgKw =>
        let po := mkContact "Person" w.registry ownerKw
        let og := mkContact "Organization" po.2 orgKw
        let w' := { w with registry := og.2 }
        (w', (componentWrite w').map fun _ =>
          [ .genericCollection "AnalysisSoftwareList" softwareEnts,
            .provider po.1.idOf,
            .auditCollection [po.1] [og.1] ])

/-- `MzIdentMLWriter.inputs` (writer.py lines 161-166): normalises each of
the three arguments, builds one entity per item, and writes a single
`Inputs` collection holding the three lists in order. -/
def inputs (w : MzWriter) (source_files search_databases spectra_data : PyVal) :
    MzWriter × Except PyError Emit :=
  match buildItems "SourceFile" source_files,
        buildItems "SearchDatabase" search_databases,
        buildItems "SpectraData" spectra_data with
  | some sf, some sd, some sp =>
    (w, (componentWrite w).map fun _ => .inputsColl sf sd sp)
  | _, _, _ => (w, .error .typeError)

/-- A Python generator expression `(self.Tag(**(s or {})) for s in
ensure_iterable(arg))`: the normalised source items are captured eagerly
(the outermost iterable of a generator expression is evaluated at creation
time) but entity construction only happens on consumption, and consuming
leaves the generator exhausted. -/
structure EntGen where
  tag : String
  remaining : List PyVal

/-- Iterate a generator to the end: converts the remaining raw items into
entities and leaves the generator exhausted.  An exhausted generator yields
the empty list without error. -/
def EntGen.consume (g : EntGen) : Except PyError (List Entity) × EntGen :=
  (match listMapO (buildEntity g.tag) g.remaining with
   | some es => .ok es
   | none => .error .typeError,
   ⟨g.tag, []⟩)

/-- Result of `sequence_collection`: the updated state, the emitted element
or error, and the three generators as they stand after the call. -/
structure SeqCollResult where
  st : MzWriter
  out : Except PyError Emit
  db_gen : EntGen
  pep_gen : EntGen
  pev_gen : EntGen

/-- `MzIdentMLWriter.sequence_collection` (writer.py lines 168-173): builds
three generator expressions (not lists) over the normalised arguments and
writes a `SequenceCollection` holding them; writing consumes each generator
once. -/
def sequence_collection (w : MzWriter)
    (db_sequences peptides peptide_evidence : PyVal) : SeqCollResult :=
  let g1 : EntGen := ⟨"DBSequence", normItems db_sequences⟩
  let g2 : EntGen := ⟨"Peptide", normItems peptides⟩
  let g3 : EntGen := ⟨"PeptideEvidence", normItems peptide_evidence⟩
  match componentWrite w with
  | .error e => ⟨w, .error e, g1, g2, g3⟩
  | .ok _ =>
    match g1.consume, g2.consume, g3.consume with
    | (.ok e1, g1'), (.ok e2, g2'), (.ok e3, g3') =>
      ⟨w, .ok (.sequenceColl e1 e2 e3), g1', g2', g3'⟩
    | (_, g1'), (_, g2'), (_, g3') => ⟨w, .error .typeError, g1', g2', g3'⟩

/-- `MzIdentMLWriter.spectrum_identification_protocol` (writer.py lines
175-188): normalises `enzymes` and `modification_params`, converts a
list/tuple tolerance positionally into the matching entity, always wraps
`threshold` (even `None`) in a `Threshold` entity, and writes the protocol
element with all fields in order.  `search_type`, `analysis_software_id`,
`id` and `additional_search_params` are passed through unchanged. -/
def spectrum_identification_protocol (w : MzWriter)
    (search_type analysis_software_id id additional_search_params
     enzymes modification_params fragment_tolerance parent_tolerance
     threshold : PyVal) : MzWriter × Except PyError Emit :=
  match buildItems "Enzyme" enzymes,
        buildItems "SearchModification" modification_params with
  | some enz, some mods =>
    let ft := mkTolerance Entity.fragTol fragment_tolerance
    let pt := mkTolerance Entity.parTol parent_tolerance
    let th := Entity.threshold threshold
    (w, (componentWrite w).map fun _ =>
      .protocolE search_type analysis_software_id id additional_search_params
        enz mods ft pt th)
  | _, _ => (w, .error .typeError)

/-- Map a fallible conversion over a list, propagating the first raised
error (the semantics of consuming a Python generator whose body may raise). -/
def listMapE (f : α → Except PyError β) : List α → Except PyError (List β)
  | [] => .ok []
  | x :: xs =>
    match f x, listMapE f xs with
    | .ok y, .ok ys => .ok (y :: ys)
    | .error e, _ => .error e
    | _, .error e => .error e

/-- The keyword parameters accepted by `_spectrum_identification_item`. -/
def siiParamNames : List String :=
  ["calculated_mass_to_charge", "experimental_mass_to_charge", "charge_state",
   "peptide_id", "peptide_evidence_id", "score", "id", "cv_params",
   "pass_threshold", "rank"]

/-- `MzIdentMLWriter._spectrum_identification_item` called as
`self._spectrum_identification_item(**kwargs)` (writer.py lines 202-208):
an unexpected or missing required keyword raises `TypeError`; `cv_params`
defaults to the empty tuple and is normalised with `ensure_iterable`;
`pass_threshold` defaults to `True` and `rank` to `1`. -/
def spectrum_identification_item (kwargs : List (String × PyVal)) :
    Except PyError SIIData :=
  if !(kwargs.all fun kv => siiParamNames.contains kv.1) then .error .typeError
  else
    match kwargs.lookup "calculated_mass_to_charge",
          kwargs.lookup "experimental_mass_to_charge",
          kwargs.lookup "charge_state", kwargs.lookup "peptide_id",
          kwargs.lookup "peptide_evidence_id", kwargs.lookup "score",
          kwargs.lookup "id" with
    | some cmz, some emz, some cs, some pid, some pev, some score, some i =>
      .ok ⟨cmz, emz, cs, pid, pev, score, i,
           ensure_iterable ((kwargs.lookup "cv_params").getD (.tuple [])),
           (kwargs.lookup "pass_threshold").getD (.bool true),
           (kwargs.lookup "rank").getD (.int 1)⟩
    | _, _, _, _, _, _, _ => .error .typeError

/-- The keyword parameters accepted by `_spectrum_identification_result`. -/
def sirParamNames : List String :=
  ["spectrum_id", "id", "spectra_data_id", "identifications"]

/-- `MzIdentMLWriter._spectrum_identification_result` called as
`self._spectrum_identification_result(**kwargs)` (writer.py lines 194-200):
`spectra_data_id` defaults to `1`, `identifications` to the empty tuple;
each normalised identification item is converted by
`self._spectrum_identification_item(**(s or {}))`. -/
def spectrum_identification_result (kwargs : List (String × PyVal)) :
    Except PyError SIRData :=
  if !(kwargs.all fun kv => sirParamNames.contains kv.1) then .error .typeError
  else
    match kwargs.lookup "spectrum_id", kwargs.lookup "id" with
    | some sid, some i =>
      let sdid := (kwargs.lookup "spectra_data_id").getD (.int 1)
      let idents := (kwargs.lookup "identifications").getD (.tuple [])
      match listMapE
          (fun s =>
            match expandKwargs s with
            | Option.none => .error .typeError
            | some kw => spectrum_identification_item kw)
          (normItems idents) with
      | .error e => .error e
      | .ok items => .ok ⟨sdid, sid, i, items⟩
    | _, _ => .error .typeError

/-- Convert one element of `identification_results`:
`self._spectrum_identification_result(**(s or {}))`. -/
def convertResult (s : PyVal) : Except PyError SIRData :=
  match expandKwargs s with
  | Option.none => .error .typeError
  | some kw => spectrum_identification_result kw

/-- The generator expression `(self._spectrum_identification_result(**(s or
{})) for s in identification_results)` (writer.py line 191): the argument is
iterated directly — no `ensure_iterable` — when the generator is created,
and each item is converted only on consumption. -/
structure ResGen where
  remaining : List PyVal

/-- Iterate a result generator to the end.  An exhausted generator yields
the empty list without error. -/
def ResGen.consume (g : ResGen) : Except PyError (List SIRData) × ResGen :=
  (listMapE convertResult g.remaining, ⟨[]⟩)

/-- Result of `spectrum_identification_list`: the updated state, the emitted
element or error, and the result generator as it stands after the call. -/
structure SpecListResult where
  st : MzWriter
  out : Except PyError Emit
  gen : ResGen

/-- `MzIdentMLWriter.spectrum_identification_list` (writer.py lines
190-192): builds the conversion generator directly over
`identification_results` (which must itself be iterable — a lone mapping is
iterated over its keys) and writes a `SpectrumIdentificationList`, consuming
the generator once. -/
def spectrum_identification_list (w : MzWriter)
    (id identification_results : PyVal) : SpecListResult :=
  match pyIter identification_results with
  | Option.none => ⟨w, .error .typeError, ⟨[]⟩⟩
  | some items =>
    let g : ResGen := ⟨items⟩
    match componentWrite w with
    | .error e => ⟨w, .error e, g⟩
    | .ok _ =>
      match g.consume with
      | (.ok results, g') => ⟨w, .ok (.specIdentList id results), g'⟩
      | (.error e, g') => ⟨w, .error e, g'⟩

/-- Which of the three statements of `MzIdentMLWriter.__exit__` that precede
the final `self.outfile.close()` raise when executed
(`self.toplevel.__exit__(...)`, `self.writer.flush()`,
`self.xmlfile.__exit__(...)`). -/
structure ExitBehavior where
  toplevelExitRaises : Bool
  flushRaises : Bool
  xmlfileExitRaises : Bool
deriving DecidableEq

/-- What `MzIdentMLWriter.__exit__` accomplished: which steps completed and
whether the call itself raised. -/
structure ExitEffects where
  rootClosed : Bool
  flushed : Bool
  xmlfileExited : Bool
  outfileClosed : Bool
  raised : Bool
deriving DecidableEq

/-- `MzIdentMLWriter.__exit__` (writer.py lines 120-124): four statements in
sequence with no try/finally — a raising statement skips every later one.
`excPending` records whether an exception is propagating out of the `with`
body; no statement of `__exit__` branches on it. -/
def mzExit (excPending : Bool) (b : ExitBehavior) : ExitEffects :=
  match excPending with
  | _ =>
    if b.toplevelExitRaises then ⟨false, false, false, false, true⟩
    else if b.flushRaises then ⟨true, false, false, false, true⟩
    else if b.xmlfileExitRaises then ⟨true, true, false, false, true⟩
    else ⟨true, true, true, true, false⟩

theorem listMapO_length {f : α → Option β} :
    ∀ {xs : List α} {ys : List β}, listMapO f xs = some ys →
      ys.length = xs.length := by
  intro xs
  induction xs with
  | nil => intro ys h; simp [listMapO] at h; simp [h.symm]
  | cons x xs ih =>
    intro ys h
    simp only [listMapO] at h
    cases hx : f x with
    | none => rw [hx] at h; simp at h
    | some y =>
      rw [hx] at h
      cases hxs : listMapO f xs with
      | none => rw [hxs] at h; simp at h
      | some ys' =>
        rw [hxs] at h
        simp at h
        simp [h.symm, ih hxs]

theorem listMapE_mem {f : α → Except PyError β} :
    ∀ {xs : List α} {ys : List β}, listMapE f xs = .ok ys →
      ∀ y ∈ ys, ∃ x ∈ xs, f x = .ok y := by
  intro xs
  induction xs with
  | nil => intro ys h; simp [listMapE] at h; subst h; simp
  | cons x xs ih =>
    intro ys h y hy
    simp only [listMapE] at h
    cases hx : f x with
    | error e => rw [hx] at h; simp at h
    | ok y' =>
      rw [hx] at h
      cases hxs : listMapE f xs with
      | error e => rw [hxs] at h; simp at h
      | ok ys' =>
        rw [hxs] at h
        simp at h
        subst h
        rcases List.mem_cons.1 hy with h1 | h1
        · exact ⟨x, List.mem_cons_self x xs, h1 ▸ hx⟩
        · obtain ⟨x', hx', hfx'⟩ := ih hxs y h1
          exact ⟨x', List.mem_cons_of_mem x hx', hfx'⟩

/-- C1: every write or section operation of a document session — `element`,
`write`, `controlled_vocabularies`, `providence`, `inputs`,
`sequence_collection`, `spectrum_identification_protocol`,
`spectrum_identification_list` — invoked before the session has been entered
(writer still unset) fails with the dedicated not-ready error, and no
operation invoked after exit succeeds (each fails with the after-close
scope-violation error). -/
theorem C1_ops_fail_before_entry_and_after_exit
    (w v : MzWriter) (name : String) (slid : PyVal)
    (hb : w.writerSet = false)
    (ha1 : v.writerSet = true) (ha2 : v.sinkOpen = false) :
    (XMLWriterMixin_element w name = .error .notReady ∧
     XMLWriterMixin_write w = .error .notReady ∧
     (controlled_vocabularies w .none).2 = .error .notReady ∧
     (providence w (.tuple []) .none .none).2 = .error .notReady ∧
     (inputs w (.tuple []) (.tuple []) (.tuple [])).2 = .error .notReady ∧
     (sequence_collection w (.tuple []) (.tuple []) (.tuple [])).out
       = .error .notReady ∧
     (spectrum_identification_protocol w (.str "ms-ms search") (.int 1)
        (.int 1) (.tuple []) (.tuple []) (.tuple []) .none .none .none).2
       = .error .notReady ∧
     (spectrum_identification_list w slid (.tuple [])).out
       = .error .notReady) ∧
    (XMLWriterMixin_element v name = .error .scopeViolation ∧
     XMLWriterMixin_write v = .error .scopeViolation ∧
     (controlled_vocabularies v .none).2 = .error .scopeViolation ∧
     (providence v (.tuple []) .none .none).2 = .error .scopeViolation ∧
     (inputs v (.tuple []) (.tuple []) (.tuple [])).2
       = .error .scopeViolation ∧
     (sequence_collection v (.tuple []) (.tuple []) (.tuple [])).out
       = .error .scopeViolation ∧
     (spectrum_identification_protocol v (.str "ms-ms search") (.int 1)
        (.int 1) (.tuple []) (.tuple []) (.tuple []) .none .none .none).2
       = .error .scopeViolation ∧
     (spectrum_identification_list v slid (.tuple [])).out
       = .error .scopeViolation) := by
  simp [XMLWriterMixin_element, XMLWriterMixin_write, rawWriterWrite,
    componentWrite, controlled_vocabularies, providence, inputs,
    sequence_collection, spectrum_identification_protocol,
    spectrum_identification_list, buildItems, normItems, ensure_iterable,
    pyIter, listMapO, buildEntity, expandKwargs, pyOr, pyTruthy,
    pyIsIterable, pyIsString, pyIsMapping, mkContact, Registry.mint,
    EntGen.consume, ResGen.consume, listMapE, mkTolerance, Except.map,
    hb, ha1, ha2]

/-- Witness for C1 at a freshly constructed writer (before entry) and an
entered-then-exited writer (after exit). -/
theorem C1_ops_fail_witness :
    (MzIdentMLWriter_init []).writerSet = false ∧
    (MzIdentMLWriter_init []).enter.exitOk.writerSet = true ∧
    (MzIdentMLWriter_init []).enter.exitOk.sinkOpen = false ∧
    ((XMLWriterMixin_element (MzIdentMLWriter_init []) "MzIdentML"
        = .error .notReady ∧
      XMLWriterMixin_write (MzIdentMLWriter_init []) = .error .notReady ∧
      (controlled_vocabularies (MzIdentMLWriter_init []) .none).2
        = .error .notReady ∧
      (providence (MzIdentMLWriter_init []) (.tuple []) .none .none).2
        = .error .notReady ∧
      (inputs (MzIdentMLWriter_init []) (.tuple []) (.tuple [])
        (.tuple [])).2 = .error .notReady ∧
      (sequence_collection (MzIdentMLWriter_init []) (.tuple []) (.tuple [])
        (.tuple [])).out = .error .notReady ∧
      (spectrum_identification_protocol (MzIdentMLWriter_init [])
        (.str "ms-ms search") (.int 1) (.int 1) (.tuple []) (.tuple [])
        (.tuple []) .none .none .none).2 = .error .notReady ∧
      (spectrum_identification_list (MzIdentMLWriter_init []) (.int 1)
        (.tuple [])).out = .error .notReady) ∧
     (XMLWriterMixin_element ((MzIdentMLWriter_init []).enter.exitOk)
        "MzIdentML" = .error .scopeViolation ∧
      XMLWriterMixin_write ((MzIdentMLWriter_init []).enter.exitOk)
        = .error .scopeViolation ∧
      (controlled_vocabularies ((MzIdentMLWriter_init []).enter.exitOk)
        .none).2 = .error .scopeViolation ∧
      (providence ((MzIdentMLWriter_init []).enter.exitOk) (.tuple [])
        .none .none).2 = .error .scopeViolation ∧
      (inputs ((MzIdentMLWriter_init []).enter.exitOk) (.tuple [])
        (.tuple []) (.tuple [])).2 = .error .scopeViolation ∧
      (sequence_collection ((MzIdentMLWriter_init []).enter.exitOk)
        (.tuple []) (.tuple []) (.tuple [])).out = .error .scopeViolation ∧
      (spectrum_identification_protocol
        ((MzIdentMLWriter_init []).enter.exitOk) (.str "ms-ms search")
        (.int 1) (.int 1) (.tuple []) (.tuple []) (.tuple []) .none .none
        .none).2 = .error .scopeViolation ∧
      (spectrum_identification_list ((MzIdentMLWriter_init []).enter.exitOk)
        (.int 1) (.tuple [])).out = .error .scopeViolation)) :=
  ⟨rfl, rfl, rfl,
   C1_ops_fail_before_entry_and_after_exit (MzIdentMLWriter_init [])
     ((MzIdentMLWriter_init []).enter.exitOk) "MzIdentML" (.int 1)
     rfl rfl rfl⟩

/-- C2 counterexample: the claim that "the sink release happens on every
exit path, even when one of the earlier exit steps fails" is false —
`__exit__` runs its four statements in sequence with no try/finally, so on
the exit path where `self.writer.flush()` raises, `self.outfile.close()`
is never reached (even though the root element was already closed). -/
theorem C2_sink_not_released_counterexample :
    (mzExit true ⟨false, true, false⟩).rootClosed = true ∧
    (mzExit true ⟨false, true, false⟩).outfileClosed = false := by
  constructor <;> rfl

/-- C2 (amended): on every exit of a document session in which none of the
three earlier exit steps raises — including exits caused by an exception
propagating out of the body, since no statement of `__exit__` branches on
the pending exception — the root element is closed, the writer is flushed,
the xmlfile context is exited and the output sink is closed; but when an
earlier exit step raises, every later step (the sink release included) is
skipped. -/
theorem C2_exit_closes_root_flushes_and_releases
    (excPending : Bool) (b : ExitBehavior)
    (h1 : b.toplevelExitRaises = false) (h2 : b.flushRaises = false)
    (h3 : b.xmlfileExitRaises = false) :
    mzExit excPending b = ⟨true, true, true, true, false⟩ ∧
    (mzExit excPending ⟨true, b.flushRaises, b.xmlfileExitRaises⟩).outfileClosed
      = false ∧
    (mzExit excPending ⟨b.toplevelExitRaises, true, b.xmlfileExitRaises⟩).outfileClosed
      = false ∧
    (mzExit excPending ⟨b.toplevelExitRaises, b.flushRaises, true⟩).outfileClosed
      = false := by
  simp [mzExit, h1, h2, h3]

/-- Witness for C2 (amended) at an exceptional exit with well-behaved
collaborators. -/
theorem C2_exit_witness :
    (ExitBehavior.mk false false false).toplevelExitRaises = false ∧
    (ExitBehavior.mk false false false).flushRaises = false ∧
    (ExitBehavior.mk false false false).xmlfileExitRaises = false ∧
    (mzExit true ⟨false, false, false⟩ = ⟨true, true, true, true, false⟩ ∧
     (mzExit true ⟨true, false, false⟩).outfileClosed = false ∧
     (mzExit true ⟨false, true, false⟩).outfileClosed = false ∧
     (mzExit true ⟨false, false, true⟩).outfileClosed = false) :=
  ⟨rfl, rfl, rfl,
   C2_exit_closes_root_flushes_and_releases true ⟨false, false, false⟩
     rfl rfl rfl⟩

/-- C3: `controlled_vocabularies` accumulates monotonically — each call
appends its argument (with `None` treated as the empty list) to the
session's vocabulary list and emits the whole cumulative list, so a second
call with another list emits the concatenation of both, a subsequent call
with an empty list (or `None`) re-emits the previously accumulated list
unchanged in content, and no call ever shrinks the list. -/
theorem C3_controlled_vocabularies_accumulates
    (w : MzWriter) (vs1 vs2 : List PyVal) (extra : PyVal)
    (h1 : w.writerSet = true) (h2 : w.sinkOpen = true) :
    (controlled_vocabularies w (.list vs1)).2
      = .ok (.cvList (w.vocabularies ++ vs1)) ∧
    (controlled_vocabularies (controlled_vocabularies w (.list vs1)).1
      (.list vs2)).2 = .ok (.cvList (w.vocabularies ++ vs1 ++ vs2)) ∧
    (controlled_vocabularies
      (controlled_vocabularies (controlled_vocabularies w (.list vs1)).1
        (.list vs2)).1 (.list [])).2
      = .ok (.cvList (w.vocabularies ++ vs1 ++ vs2)) ∧
    (controlled_vocabularies
      (controlled_vocabularies (controlled_vocabularies w (.list vs1)).1
        (.list vs2)).1 .none).2
      = .ok (.cvList (w.vocabularies ++ vs1 ++ vs2)) ∧
    w.vocabularies.length
      ≤ (controlled_vocabularies w extra).1.vocabularies.length := by
  refine ⟨?_, ?_, ?_, ?_, ?_⟩
  · simp [controlled_vocabularies, componentWrite, pyIter, Except.map, h1, h2]
  · simp [controlled_vocabularies, componentWrite, pyIter, Except.map, h1, h2]
  · simp [controlled_vocabularies, componentWrite, pyIter, Except.map, h1, h2]
  · simp [controlled_vocabularies, componentWrite, pyIter, Except.map, h1, h2]
  · cases extra <;>
      simp [controlled_vocabularies, componentWrite, pyIter, Except.map,
        h1, h2]

/-- Witness for C3 on an entered session with two disjoint singleton
vocabulary lists. -/
theorem C3_controlled_vocabularies_witness :
    (MzIdentMLWriter_init []).enter.writerSet = true ∧
    (MzIdentMLWriter_init []).enter.sinkOpen = true ∧
    ((controlled_vocabularies (MzIdentMLWriter_init []).enter
        (.list [.str "PSI-MS"])).2 = .ok (.cvList [.str "PSI-MS"]) ∧
     (controlled_vocabularies
        (controlled_vocabularies (MzIdentMLWriter_init []).enter
          (.list [.str "PSI-MS"])).1 (.list [.str "UO"])).2
       = .ok (.cvList [.str "PSI-MS", .str "UO"]) ∧
     (controlled_vocabularies
        (controlled_vocabularies
          (controlled_vocabularies (MzIdentMLWriter_init []).enter
            (.list [.str "PSI-MS"])).1 (.list [.str "UO"])).1 (.list [])).2
       = .ok (.cvList [.str "PSI-MS", .str "UO"]) ∧
     (controlled_vocabularies
        (controlled_vocabularies
          (controlled_vocabularies (MzIdentMLWriter_init []).enter
            (.list [.str "PSI-MS"])).1 (.list [.str "UO"])).1 .none).2
       = .ok (.cvList [.str "PSI-MS", .str "UO"]) ∧
     (MzIdentMLWriter_init []).enter.vocabularies.length
       ≤ (controlled_vocabularies (MzIdentMLWriter_init []).enter
            (.str "OBO")).1.vocabularies.length) := by
  refine ⟨rfl, rfl, ?_⟩
  have h := C3_controlled_vocabularies_accumulates
    (MzIdentMLWriter_init []).enter [.str "PSI-MS"] [.str "UO"]
    (.str "OBO") rfl rfl
  simpa [MzIdentMLWriter_init, MzWriter.enter] using h

/-- C4: `providence` with `owner` and `organization` omitted constructs a
default Person and a default Organization, emits an `AnalysisSoftwareList`,
then a `Provider` whose contact attribute equals the id of that default
Person — the very id carried by the Person element nested in the
`AuditCollection` — and finally an `AuditCollection` nesting that owner and
organization. -/
theorem C4_providence_default_owner
    (w : MzWriter) (software : PyVal) (ents : List Entity)
    (h1 : w.writerSet = true) (h2 : w.sinkOpen = true)
    (hs : buildItems "AnalysisSoftware" software = some ents) :
    ∃ pid oid,
      (providence w software .none .none).2 =
        .ok [Emit.genericCollection "AnalysisSoftwareList" ents,
             Emit.provider pid,
             Emit.auditCollection [Entity.contact "Person" pid []]
               [Entity.contact "Organization" oid []]] := by
  refine ⟨(mkContact "Person" w.registry []).1.idOf,
    (mkContact "Organization" (mkContact "Person" w.registry []).2
      []).1.idOf, ?_⟩
  simp [providence, hs, expandKwargs, pyOr, pyTruthy, mkContact,
    Registry.mint, componentWrite, Entity.idOf, Except.map, h1, h2]

/-- Witness for C4 on an entered session with the default (empty tuple)
software argument. -/
theorem C4_providence_witness :
    (MzIdentMLWriter_init []).enter.writerSet = true ∧
    (MzIdentMLWriter_init []).enter.sinkOpen = true ∧
    buildItems "AnalysisSoftware" (.tuple []) = some [] ∧
    (∃ pid oid,
      (providence (MzIdentMLWriter_init []).enter (.tuple [])
        .none .none).2 =
        .ok [Emit.genericCollection "AnalysisSoftwareList" [],
             Emit.provider pid,
             Emit.auditCollection [Entity.contact "Person" pid []]
               [Entity.contact "Organization" oid []]]) :=
  ⟨rfl, rfl, rfl,
   C4_providence_default_owner (MzIdentMLWriter_init []).enter
     (.tuple []) [] rfl rfl rfl⟩

/-- C5: `ensure_iterable` maps a lone mapping or a string to a one-element
sequence containing it and returns any other iterable unchanged; `inputs`
applies it at entry to each of its three collection arguments and emits one
`Inputs` collection containing the three entity lists in fixed order with
exactly one entity per normalised item; `providence` and
`spectrum_identification_protocol` apply the same normalisation to their
collection arguments. -/
theorem C5_ensure_iterable_normalisation
    (w : MzWriter) (m : List (String × PyVal)) (s : String)
    (v a b c g d e st asid i asp ft pt th : PyVal)
    (la lb lc lg ld le : List Entity)
    (h1 : w.writerSet = true) (h2 : w.sinkOpen = true)
    (hit : pyIsIterable v = true) (hstr : pyIsString v = false)
    (hmap : pyIsMapping v = false)
    (ha : buildItems "SourceFile" a = some la)
    (hbb : buildItems "SearchDatabase" b = some lb)
    (hc : buildItems "SpectraData" c = some lc)
    (hg : buildItems "AnalysisSoftware" g = some lg)
    (hd : buildItems "Enzyme" d = some ld)
    (he : buildItems "SearchModification" e = some le) :
    ensure_iterable (.mapping m) = .list [.mapping m] ∧
    ensure_iterable (.str s) = .list [.str s] ∧
    ensure_iterable v = v ∧
    (inputs w a b c).2 = .ok (.inputsColl la lb lc) ∧
    la.length = (normItems a).length ∧
    lb.length = (normItems b).length ∧
    lc.length = (normItems c).length ∧
    (∃ rest : List Emit, (providence w g .none .none).2
      = .ok (Emit.genericCollection "AnalysisSoftwareList" lg :: rest)) ∧
    lg.length = (normItems g).length ∧
    (spectrum_identification_protocol w st asid i asp d e ft pt th).2
      = .ok (.protocolE st asid i asp ld le (mkTolerance Entity.fragTol ft)
          (mkTolerance Entity.parTol pt) (Entity.threshold th)) ∧
    ld.length = (normItems d).length ∧
    le.length = (normItems e).length := by
  refine ⟨?_, ?_, ?_, ?_, ?_, ?_, ?_, ?_, ?_, ?_, ?_, ?_⟩
  · simp [ensure_iterable, pyIsIterable, pyIsString, pyIsMapping]
  · simp [ensure_iterable, pyIsIterable, pyIsString, pyIsMapping]
  · simp [ensure_iterable, hit, hstr, hmap]
  · simp [inputs, ha, hbb, hc, componentWrite, Except.map, h1, h2]
  · exact listMapO_length ha
  · exact listMapO_length hbb
  · exact listMapO_length hc
  · refine ⟨[Emit.provider (mkContact "Person" w.registry []).1.idOf,
      Emit.auditCollection [(mkContact "Person" w.registry []).1]
        [(mkContact "Organization"
           (mkContact "Person" w.registry []).2 []).1]], ?_⟩
    simp [providence, hg, expandKwargs, pyOr, pyTruthy, componentWrite,
      Except.map, h1, h2]
  · exact listMapO_length hg
  · simp [spectrum_identification_protocol, hd, he, componentWrite,
      Except.map, h1, h2]
  · exact listMapO_length hd
  · exact listMapO_length he

/-- Witness for C5 on an entered session: a lone mapping for the source
files, a tuple of two mappings for the search databases, a string argument
and a bare tuple as the "other iterable". -/
theorem C5_ensure_iterable_witness :
    (MzIdentMLWriter_init []).enter.writerSet = true ∧
    (MzIdentMLWriter_init []).enter.sinkOpen = true ∧
    pyIsIterable (.tuple [.int 7]) = true ∧
    pyIsString (.tuple [.int 7]) = false ∧
    pyIsMapping (.tuple [.int 7]) = false ∧
    buildItems "SourceFile" (.mapping [("location", .str "f.mgf")])
      = some [.generic "SourceFile" [("location", .str "f.mgf")]] ∧
    buildItems "SearchDatabase" (.tuple [.mapping [], .mapping []])
      = some [.generic "SearchDatabase" [], .generic "SearchDatabase" []] ∧
    buildItems "SpectraData" (.tuple []) = some [] ∧
    buildItems "AnalysisSoftware" (.tuple []) = some [] ∧
    buildItems "Enzyme" (.tuple []) = some [] ∧
    buildItems "SearchModification" (.tuple []) = some [] ∧
    (ensure_iterable (.mapping [("id", .int 1)])
       = .list [.mapping [("id", .int 1)]] ∧
     ensure_iterable (.str "ab") = .list [.str "ab"] ∧
     ensure_iterable (.tuple [.int 7]) = .tuple [.int 7] ∧
     (inputs (MzIdentMLWriter_init []).enter
        (.mapping [("location", .str "f.mgf")])
        (.tuple [.mapping [], .mapping []]) (.tuple [])).2
       = .ok (.inputsColl
           [.generic "SourceFile" [("location", .str "f.mgf")]]
           [.generic "SearchDatabase" [], .generic "SearchDatabase" []]
           []) ∧
     [Entity.generic "SourceFile" [("location", .str "f.mgf")]].length
       = (normItems (.mapping [("location", .str "f.mgf")])).length ∧
     [Entity.generic "SearchDatabase" [],
      Entity.generic "SearchDatabase" []].length
       = (normItems (.tuple [.mapping [], .mapping []])).length ∧
     ([] : List Entity).length = (normItems (.tuple [])).length ∧
     (∃ rest : List Emit,
       (providence (MzIdentMLWriter_init []).enter (.tuple [])
         .none .none).2
         = .ok (Emit.genericCollection "AnalysisSoftwareList" [] :: rest)) ∧
     ([] : List Entity).length = (normItems (.tuple [])).length ∧
     (spectrum_identification_protocol (MzIdentMLWriter_init []).enter
        (.str "ms-ms search") (.int 1) (.int 1) (.tuple []) (.tuple [])
        (.tuple []) .none .none .none).2
       = .ok (.protocolE (.str "ms-ms search") (.int 1) (.int 1) (.tuple [])
           [] [] (mkTolerance Entity.fragTol .none)
           (mkTolerance Entity.parTol .none) (Entity.threshold .none)) ∧
     ([] : List Entity).length = (normItems (.tuple [])).length ∧
     ([] : List Entity).length = (normItems (.tuple [])).length) :=
  ⟨rfl, rfl, rfl, rfl, rfl, rfl, rfl, rfl, rfl, rfl, rfl,
   C5_ensure_iterable_normalisation (MzIdentMLWriter_init []).enter
     [("id", .int 1)] "ab" (.tuple [.int 7])
     (.mapping [("location", .str "f.mgf")])
     (.tuple [.mapping [], .mapping []]) (.tuple []) (.tuple [])
     (.tuple []) (.tuple []) (.str "ms-ms search") (.int 1) (.int 1)
     (.tuple []) .none .none .none
     [.generic "SourceFile" [("location", .str "f.mgf")]]
     [.generic "SearchDatabase" [], .generic "SearchDatabase" []]
     [] [] [] []
     rfl rfl rfl rfl rfl rfl rfl rfl rfl rfl rfl⟩

/-- C6: `sequence_collection` builds its three entity sequences as lazy
single-pass generators rather than materialising them eagerly — before the
write happens (e.g. on an unentered session) each generator still holds the
raw normalised items with no entity constructed; during a successful write
each generator is consumed exactly once (left exhausted); and re-iterating
an exhausted generator yields the empty sequence without raising. -/
theorem C6_sequence_collection_lazy_single_pass
    (w u : MzWriter) (db peps pev : PyVal) (e1 e2 e3 : List Entity)
    (h1 : w.writerSet = true) (h2 : w.sinkOpen = true)
    (hu : u.writerSet = false)
    (hd : buildItems "DBSequence" db = some e1)
    (hp : buildItems "Peptide" peps = some e2)
    (hv : buildItems "PeptideEvidence" pev = some e3) :
    (sequence_collection u db peps pev).db_gen.remaining = normItems db ∧
    (sequence_collection u db peps pev).pep_gen.remaining = normItems peps ∧
    (sequence_collection u db peps pev).pev_gen.remaining = normItems pev ∧
    (sequence_collection w db peps pev).out
      = .ok (.sequenceColl e1 e2 e3) ∧
    (sequence_collection w db peps pev).db_gen.remaining = [] ∧
    (sequence_collection w db peps pev).pep_gen.remaining = [] ∧
    (sequence_collection w db peps pev).pev_gen.remaining = [] ∧
    (sequence_collection w db peps pev).db_gen.consume
      = (.ok [], ⟨"DBSequence", []⟩) ∧
    (sequence_collection w db peps pev).pep_gen.consume
      = (.ok [], ⟨"Peptide", []⟩) ∧
    (sequence_collection w db peps pev).pev_gen.consume
      = (.ok [], ⟨"PeptideEvidence", []⟩) := by
  have hd' : listMapO (buildEntity "DBSequence") (normItems db)
      = some e1 := hd
  have hp' : listMapO (buildEntity "Peptide") (normItems peps)
      = some e2 := hp
  have hv' : listMapO (buildEntity "PeptideEvidence") (normItems pev)
      = some e3 := hv
  simp [sequence_collection, componentWrite, EntGen.consume, listMapO,
    hd', hp', hv', h1, h2, hu]

/-- Witness for C6: one db-sequence mapping, empty peptide and evidence
collections, on an entered and an unentered session. -/
theorem C6_sequence_collection_witness :
    (MzIdentMLWriter_init []).enter.writerSet = true ∧
    (MzIdentMLWriter_init []).enter.sinkOpen = true ∧
    (MzIdentMLWriter_init []).writerSet = false ∧
    buildItems "DBSequence" (.list [.mapping [("accession", .str "Q1")]])
      = some [.generic "DBSequence" [("accession", .str "Q1")]] ∧
    buildItems "Peptide" (.tuple []) = some [] ∧
    buildItems "PeptideEvidence" (.tuple []) = some [] ∧
    ((sequence_collection (MzIdentMLWriter_init [])
        (.list [.mapping [("accession", .str "Q1")]]) (.tuple [])
        (.tuple [])).db_gen.remaining
       = normItems (.list [.mapping [("accession", .str "Q1")]]) ∧
     (sequence_collection (MzIdentMLWriter_init [])
        (.list [.mapping [("accession", .str "Q1")]]) (.tuple [])
        (.tuple [])).pep_gen.remaining = normItems (.tuple []) ∧
     (sequence_collection (MzIdentMLWriter_init [])
        (.list [.mapping [("accession", .str "Q1")]]) (.tuple [])
        (.tuple [])).pev_gen.remaining = normItems (.tuple []) ∧
     (sequence_collection (MzIdentMLWriter_init []).enter
        (.list [.mapping [("accession", .str "Q1")]]) (.tuple [])
        (.tuple [])).out
       = .ok (.sequenceColl
           [.generic "DBSequence" [("accession", .str "Q1")]] [] []) ∧
     (sequence_collection (MzIdentMLWriter_init []).enter
        (.list [.mapping [("accession", .str "Q1")]]) (.tuple [])
        (.tuple [])).db_gen.remaining = [] ∧
     (sequence_collection (MzIdentMLWriter_init []).enter
        (.list [.mapping [("accession", .str "Q1")]]) (.tuple [])
        (.tuple [])).pep_gen.remaining = [] ∧
     (sequence_collection (MzIdentMLWriter_init []).enter
        (.list [.mapping [("accession", .str "Q1")]]) (.tuple [])
        (.tuple [])).pev_gen.remaining = [] ∧
     (sequence_collection (MzIdentMLWriter_init []).enter
        (.list [.mapping [("accession", .str "Q1")]]) (.tuple [])
        (.tuple [])).db_gen.consume = (.ok [], ⟨"DBSequence", []⟩) ∧
     (sequence_collection (MzIdentMLWriter_init []).enter
        (.list [.mapping [("accession", .str "Q1")]]) (.tuple [])
        (.tuple [])).pep_gen.consume = (.ok [], ⟨"Peptide", []⟩) ∧
     (sequence_collection (MzIdentMLWriter_init []).enter
        (.list [.mapping [("accession", .str "Q1")]]) (.tuple [])
        (.tuple [])).pev_gen.consume = (.ok [], ⟨"PeptideEvidence", []⟩)) :=
  ⟨rfl, rfl, rfl, rfl, rfl, rfl,
   C6_sequence_collection_lazy_single_pass (MzIdentMLWriter_init []).enter
     (MzIdentMLWriter_init [])
     (.list [.mapping [("accession", .str "Q1")]]) (.tuple []) (.tuple [])
     [.generic "DBSequence" [("accession", .str "Q1")]] [] []
     rfl rfl rfl rfl rfl rfl⟩

/-- C7: in `spectrum_identification_protocol`, a `fragment_tolerance` or
`parent_tolerance` argument given as a plain list or tuple is turned into
the corresponding FragmentTolerance/ParentTolerance entity built
positionally from its elements, any non-list/tuple value is passed through
unchanged, and the `threshold` argument is always wrapped in a Threshold
entity — including when it is `None`. -/
theorem C7_protocol_tolerances_and_threshold
    (w : MzWriter) (st asid i asp enz mods ft pt th v : PyVal)
    (xs : List PyVal) (ld le : List Entity)
    (h1 : w.writerSet = true) (h2 : w.sinkOpen = true)
    (hd : buildItems "Enzyme" enz = some ld)
    (he : buildItems "SearchModification" mods = some le)
    (hv : pyIsListOrTuple v = false) :
    mkTolerance Entity.fragTol (.list xs) = .built (.fragTol xs) ∧
    mkTolerance Entity.fragTol (.tuple xs) = .built (.fragTol xs) ∧
    mkTolerance Entity.parTol (.list xs) = .built (.parTol xs) ∧
    mkTolerance Entity.parTol (.tuple xs) = .built (.parTol xs) ∧
    mkTolerance Entity.fragTol v = .raw v ∧
    mkTolerance Entity.parTol v = .raw v ∧
    (spectrum_identification_protocol w st asid i asp enz mods ft pt th).2
      = .ok (.protocolE st asid i asp ld le (mkTolerance Entity.fragTol ft)
          (mkTolerance Entity.parTol pt) (Entity.threshold th)) ∧
    (spectrum_identification_protocol w st asid i asp enz mods ft pt
      .none).2
      = .ok (.protocolE st asid i asp ld le (mkTolerance Entity.fragTol ft)
          (mkTolerance Entity.parTol pt) (Entity.threshold .none)) := by
  refine ⟨rfl, rfl, rfl, rfl, ?_, ?_, ?_, ?_⟩
  · cases v <;> simp_all [mkTolerance, pyIsListOrTuple]
  · cases v <;> simp_all [mkTolerance, pyIsListOrTuple]
  · simp [spectrum_identification_protocol, hd, he, componentWrite,
      Except.map, h1, h2]
  · simp [spectrum_identification_protocol, hd, he, componentWrite,
      Except.map, h1, h2]

/-- Witness for C7: a two-element list tolerance, a pre-built-style raw
value (`None`), and a `None` threshold on an entered session. -/
theorem C7_protocol_witness :
    (MzIdentMLWriter_init []).enter.writerSet = true ∧
    (MzIdentMLWriter_init []).enter.sinkOpen = true ∧
    buildItems "Enzyme" (.tuple []) = some [] ∧
    buildItems "SearchModification" (.tuple []) = some [] ∧
    pyIsListOrTuple (.str "20 ppm") = false ∧
    (mkTolerance Entity.fragTol (.list [.int 10, .str "ppm"])
       = .built (.fragTol [.int 10, .str "ppm"]) ∧
     mkTolerance Entity.fragTol (.tuple [.int 10, .str "ppm"])
       = .built (.fragTol [.int 10, .str "ppm"]) ∧
     mkTolerance Entity.parTol (.list [.int 10, .str "ppm"])
       = .built (.parTol [.int 10, .str "ppm"]) ∧
     mkTolerance Entity.parTol (.tuple [.int 10, .str "ppm"])
       = .built (.parTol [.int 10, .str "ppm"]) ∧
     mkTolerance Entity.fragTol (.str "20 ppm") = .raw (.str "20 ppm") ∧
     mkTolerance Entity.parTol (.str "20 ppm") = .raw (.str "20 ppm") ∧
     (spectrum_identification_protocol (MzIdentMLWriter_init []).enter
        (.str "ms-ms search") (.int 1) (.int 1) (.tuple []) (.tuple [])
        (.tuple []) (.list [.int 10, .str "ppm"]) (.str "20 ppm")
        (.str "q-value")).2
       = .ok (.protocolE (.str "ms-ms search") (.int 1) (.int 1) (.tuple [])
           [] []
           (mkTolerance Entity.fragTol (.list [.int 10, .str "ppm"]))
           (mkTolerance Entity.parTol (.str "20 ppm"))
           (Entity.threshold (.str "q-value"))) ∧
     (spectrum_identification_protocol (MzIdentMLWriter_init []).enter
        (.str "ms-ms search") (.int 1) (.int 1) (.tuple []) (.tuple [])
        (.tuple []) (.list [.int 10, .str "ppm"]) (.str "20 ppm") .none).2
       = .ok (.protocolE (.str "ms-ms search") (.int 1) (.int 1) (.tuple [])
           [] []
           (mkTolerance Entity.fragTol (.list [.int 10, .str "ppm"]))
           (mkTolerance Entity.parTol (.str "20 ppm"))
           (Entity.threshold .none))) :=
  ⟨rfl, rfl, rfl, rfl, rfl,
   C7_protocol_tolerances_and_threshold (MzIdentMLWriter_init []).enter
     (.str "ms-ms search") (.int 1) (.int 1) (.tuple []) (.tuple [])
     (.tuple []) (.list [.int 10, .str "ppm"]) (.str "20 ppm")
     (.str "q-value") (.str "20 ppm") [.int 10, .str "ppm"] [] []
     rfl rfl rfl rfl rfl⟩

theorem spectrum_identification_item_fields
    {kwargs : List (String × PyVal)} {sii : SIIData}
    (h : spectrum_identification_item kwargs = .ok sii) :
    sii.pass_threshold = (kwargs.lookup "pass_threshold").getD (.bool true)
    ∧ sii.rank = (kwargs.lookup "rank").getD (.int 1) := by
  unfold spectrum_identification_item at h
  split at h
  · simp at h
  · split at h
    · simp only [Except.ok.injEq] at h
      subst h
      exact ⟨rfl, rfl⟩
    · simp at h

theorem spectrum_identification_result_items
    {kwargs : List (String × PyVal)} {sir : SIRData}
    (h : spectrum_identification_result kwargs = .ok sir) :
    ∀ sii ∈ sir.identifications,
      ∃ s kw, expandKwargs s = some kw ∧
        spectrum_identification_item kw = .ok sii := by
  intro sii hmem
  unfold spectrum_identification_result at h
  split at h
  · simp at h
  · split at h
    · dsimp only at h
      split at h
      · simp at h
      · next items hitems =>
          simp only [Except.ok.injEq] at h
          subst h
          simp only at hmem
          obtain ⟨x, hx, hfx⟩ := listMapE_mem hitems sii hmem
          cases hek : expandKwargs x with
          | none => rw [hek] at hfx; simp at hfx
          | some kw =>
            rw [hek] at hfx
            exact ⟨x, kw, hek, hfx⟩
    · simp at h

/-- C8: for every identification item mapping reaching
`_spectrum_identification_item` (through the nested results of
`spectrum_identification_list`), the constructed SpectrumIdentificationItem
carries `pass_threshold = True` and `rank = 1` whenever those keys are
omitted from the mapping, and carries the caller-supplied values otherwise;
every item of a constructed result arises from such a mapping. -/
theorem C8_item_pass_threshold_rank_defaults
    (kw1 kw2 resKw : List (String × PyVal)) (sii1 sii2 sii' : SIIData)
    (sir : SIRData) (pv rv : PyVal)
    (h1 : spectrum_identification_item kw1 = .ok sii1)
    (hpt1 : kw1.lookup "pass_threshold" = Option.none)
    (hrk1 : kw1.lookup "rank" = Option.none)
    (h2 : spectrum_identification_item kw2 = .ok sii2)
    (hpt2 : kw2.lookup "pass_threshold" = some pv)
    (hrk2 : kw2.lookup "rank" = some rv)
    (hres : spectrum_identification_result resKw = .ok sir)
    (hmem : sii' ∈ sir.identifications) :
    sii1.pass_threshold = .bool true ∧
    sii1.rank = .int 1 ∧
    sii2.pass_threshold = pv ∧
    sii2.rank = rv ∧
    (∃ s kw, expandKwargs s = some kw ∧
      spectrum_identification_item kw = .ok sii') := by
  obtain ⟨a1, b1⟩ := spectrum_identification_item_fields h1
  obtain ⟨a2, b2⟩ := spectrum_identification_item_fields h2
  refine ⟨?_, ?_, ?_, ?_,
    spectrum_identification_result_items hres sii' hmem⟩
  · rw [a1, hpt1]; rfl
  · rw [b1, hrk1]; rfl
  · rw [a2, hpt2]; rfl
  · rw [b2, hrk2]; rfl

/-- Witness for C8: a concrete item mapping without `pass_threshold`/`rank`,
one supplying both, and a result mapping nesting the first item. -/
theorem C8_item_defaults_witness :
    spectrum_identification_item
      [("calculated_mass_to_charge", .int 1),
       ("experimental_mass_to_charge", .int 2), ("charge_state", .int 2),
       ("peptide_id", .str "P1"), ("peptide_evidence_id", .str "PE1"),
       ("score", .int 5), ("id", .int 1)]
      = .ok ⟨.int 1, .int 2, .int 2, .str "P1", .str "PE1", .int 5, .int 1,
             .tuple [], .bool true, .int 1⟩ ∧
    spectrum_identification_item
      [("calculated_mass_to_charge", .int 1),
       ("experimental_mass_to_charge", .int 2), ("charge_state", .int 2),
       ("peptide_id", .str "P1"), ("peptide_evidence_id", .str "PE1"),
       ("score", .int 5), ("id", .int 1), ("pass_threshold", .bool false),
       ("rank", .int 3)]
      = .ok ⟨.int 1, .int 2, .int 2, .str "P1", .str "PE1", .int 5, .int 1,
             .tuple [], .bool false, .int 3⟩ ∧
    spectrum_identification_result
      [("spectrum_id", .str "s1"), ("id", .int 7),
       ("identifications",
        .list [.mapping
          [("calculated_mass_to_charge", .int 1),
           ("experimental_mass_to_charge", .int 2), ("charge_state", .int 2),
           ("peptide_id", .str "P1"), ("peptide_evidence_id", .str "PE1"),
           ("score", .int 5), ("id", .int 1)]])]
      = .ok ⟨.int 1, .str "s1", .int 7,
             [⟨.int 1, .int 2, .int 2, .str "P1", .str "PE1", .int 5,
               .int 1, .tuple [], .bool true, .int 1⟩]⟩ ∧
    (SIIData.mk (.int 1) (.int 2) (.int 2) (.str "P1") (.str "PE1") (.int 5)
       (.int 1) (.tuple []) (.bool true) (.int 1)).pass_threshold
      = .bool true ∧
    (SIIData.mk (.int 1) (.int 2) (.int 2) (.str "P1") (.str "PE1") (.int 5)
       (.int 1) (.tuple []) (.bool true) (.int 1)).rank = .int 1 ∧
    (SIIData.mk (.int 1) (.int 2) (.int 2) (.str "P1") (.str "PE1") (.int 5)
       (.int 1) (.tuple []) (.bool false) (.int 3)).pass_threshold
      = .bool false ∧
    (SIIData.mk (.int 1) (.int 2) (.int 2) (.str "P1") (.str "PE1") (.int 5)
       (.int 1) (.tuple []) (.bool false) (.int 3)).rank = .int 3 ∧
    (∃ s kw, expandKwargs s = some kw ∧
      spectrum_identification_item kw
        = .ok ⟨.int 1, .int 2, .int 2, .str "P1", .str "PE1", .int 5,
               .int 1, .tuple [], .bool true, .int 1⟩) := by
  have h := C8_item_pass_threshold_rank_defaults
    [("calculated_mass_to_charge", .int 1),
     ("experimental_mass_to_charge", .int 2), ("charge_state", .int 2),
     ("peptide_id", .str "P1"), ("peptide_evidence_id", .str "PE1"),
     ("score", .int 5), ("id", .int 1)]
    [("calculated_mass_to_charge", .int 1),
     ("experimental_mass_to_charge", .int 2), ("charge_state", .int 2),
     ("peptide_id", .str "P1"), ("peptide_evidence_id", .str "PE1"),
     ("score", .int 5), ("id", .int 1), ("pass_threshold", .bool false),
     ("rank", .int 3)]
    [("spectrum_id", .str "s1"), ("id", .int 7),
     ("identifications",
      .list [.mapping
        [("calculated_mass_to_charge", .int 1),
         ("experimental_mass_to_charge", .int 2), ("charge_state", .int 2),
         ("peptide_id", .str "P1"), ("peptide_evidence_id", .str "PE1"),
         ("score", .int 5), ("id", .int 1)]])]
    ⟨.int 1, .int 2, .int 2, .str "P1", .str "PE1", .int 5, .int 1,
     .tuple [], .bool true, .int 1⟩
    ⟨.int 1, .int 2, .int 2, .str "P1", .str "PE1", .int 5, .int 1,
     .tuple [], .bool false, .int 3⟩
    ⟨.int 1, .int 2, .int 2, .str "P1", .str "PE1", .int 5, .int 1,
     .tuple [], .bool true, .int 1⟩
    ⟨.int 1, .str "s1", .int 7,
     [⟨.int 1, .int 2, .int 2, .str "P1", .str "PE1", .int 5, .int 1,
       .tuple [], .bool true, .int 1⟩]⟩
    (.bool false) (.int 3) rfl rfl rfl rfl rfl rfl rfl
    (List.mem_singleton.mpr rfl)
  exact ⟨rfl, rfl, rfl, h.1, h.2.1, h.2.2.1, h.2.2.2.1, h.2.2.2.2⟩

/-- C9: passing `None` (or a sequence containing `None` or another falsy
item) as a collection argument to `providence`, `inputs`,
`sequence_collection` or `spectrum_identification_protocol` yields exactly
one default-constructed entity for that item rather than zero entities:
`ensure_iterable` wraps the non-iterable `None` into a one-element sequence
and `(s or {})` replaces each falsy item by the empty mapping before entity
construction. -/
theorem C9_falsy_items_default_entities
    (w : MzWriter) (tag : String) (s : PyVal)
    (h1 : w.writerSet = true) (h2 : w.sinkOpen = true)
    (hs : pyTruthy s = false) :
    ensure_iterable .none = .list [.none] ∧
    buildItems tag .none = some [.generic tag []] ∧
    buildEntity tag s = some (.generic tag []) ∧
    buildItems tag (.list [s]) = some [.generic tag []] ∧
    (inputs w .none (.tuple []) (.tuple [])).2
      = .ok (.inputsColl [.generic "SourceFile" []] [] []) ∧
    (∃ rest : List Emit, (providence w .none .none .none).2
      = .ok (Emit.genericCollection "AnalysisSoftwareList"
          [.generic "AnalysisSoftware" []] :: rest)) ∧
    (spectrum_identification_protocol w (.str "ms-ms search") (.int 1)
      (.int 1) (.tuple []) .none (.tuple []) .none .none .none).2
      = .ok (.protocolE (.str "ms-ms search") (.int 1) (.int 1) (.tuple [])
          [.generic "Enzyme" []] [] (.raw .none) (.raw .none)
          (.threshold .none)) ∧
    (sequence_collection w .none (.tuple []) (.tuple [])).out
      = .ok (.sequenceColl [.generic "DBSequence" []] [] []) := by
  refine ⟨rfl, rfl, ?_, ?_, ?_, ?_, ?_, ?_⟩
  · simp [buildEntity, expandKwargs, pyOr, hs]
  · simp [buildItems, normItems, ensure_iterable, pyIsIterable, pyIsString,
      pyIsMapping, pyIter, listMapO, buildEntity, expandKwargs, pyOr, hs]
  · simp [inputs, buildItems, normItems, ensure_iterable, pyIsIterable,
      pyIsString, pyIsMapping, pyIter, listMapO, buildEntity, expandKwargs,
      pyOr, pyTruthy, componentWrite, Except.map, h1, h2]
  · refine ⟨[Emit.provider (mkContact "Person" w.registry []).1.idOf,
      Emit.auditCollection [(mkContact "Person" w.registry []).1]
        [(mkContact "Organization"
           (mkContact "Person" w.registry []).2 []).1]], ?_⟩
    simp [providence, buildItems, normItems, ensure_iterable, pyIsIterable,
      pyIsString, pyIsMapping, pyIter, listMapO, buildEntity, expandKwargs,
      pyOr, pyTruthy, componentWrite, Except.map, h1, h2]
  · simp [spectrum_identification_protocol, buildItems, normItems,
      ensure_iterable, pyIsIterable, pyIsString, pyIsMapping, pyIter,
      listMapO, buildEntity, expandKwargs, pyOr, pyTruthy, mkTolerance,
      componentWrite, Except.map, h1, h2]
  · simp [sequence_collection, EntGen.consume, normItems, ensure_iterable,
      pyIsIterable, pyIsString, pyIsMapping, pyIter, listMapO, buildEntity,
      expandKwargs, pyOr, pyTruthy, componentWrite, h1, h2]

/-- Witness for C9 on an entered session with the falsy item `0`. -/
theorem C9_falsy_items_witness :
    (MzIdentMLWriter_init []).enter.writerSet = true ∧
    (MzIdentMLWriter_init []).enter.sinkOpen = true ∧
    pyTruthy (.int 0) = false ∧
    (ensure_iterable .none = .list [.none] ∧
     buildItems "SourceFile" .none = some [.generic "SourceFile" []] ∧
     buildEntity "SourceFile" (.int 0) = some (.generic "SourceFile" []) ∧
     buildItems "SourceFile" (.list [.int 0])
       = some [.generic "SourceFile" []] ∧
     (inputs (MzIdentMLWriter_init []).enter .none (.tuple [])
        (.tuple [])).2
       = .ok (.inputsColl [.generic "SourceFile" []] [] []) ∧
     (∃ rest : List Emit,
       (providence (MzIdentMLWriter_init []).enter .none .none .none).2
         = .ok (Emit.genericCollection "AnalysisSoftwareList"
             [.generic "AnalysisSoftware" []] :: rest)) ∧
     (spectrum_identification_protocol (MzIdentMLWriter_init []).enter
        (.str "ms-ms search") (.int 1) (.int 1) (.tuple []) .none
        (.tuple []) .none .none .none).2
       = .ok (.protocolE (.str "ms-ms search") (.int 1) (.int 1) (.tuple [])
           [.generic "Enzyme" []] [] (.raw .none) (.raw .none)
           (.threshold .none)) ∧
     (sequence_collection (MzIdentMLWriter_init []).enter .none (.tuple [])
        (.tuple [])).out
       = .ok (.sequenceColl [.generic "DBSequence" []] [] [])) :=
  ⟨rfl, rfl, rfl,
   C9_falsy_items_default_entities (MzIdentMLWriter_init []).enter
     "SourceFile" (.int 0) rfl rfl rfl⟩

/-- C10: unlike every other section operation,
`spectrum_identification_list` applies no single-item normalisation to its
`identification_results` argument — the argument is iterated directly into
a lazy single-pass generator, so a lone mapping passed in place of a
sequence is iterated over its keys instead of being wrapped into a
one-element sequence of results (which is what `ensure_iterable` would have
produced). -/
theorem C10_spectrum_identification_list_no_normalisation
    (w u : MzWriter) (slid : PyVal) (m : List (String × PyVal))
    (items : List PyVal) (results : List SIRData)
    (h1 : w.writerSet = true) (h2 : w.sinkOpen = true)
    (hu : u.writerSet = false)
    (hl : listMapE convertResult items = .ok results) :
    (spectrum_identification_list u slid (.mapping m)).gen.remaining
      = m.map (fun kv => .str kv.1) ∧
    pyIter (ensure_iterable (.mapping m)) = some [.mapping m] ∧
    (spectrum_identification_list u slid
       (.mapping [("a", .int 1)])).gen.remaining
      ≠ [.mapping [("a", .int 1)]] ∧
    (spectrum_identification_list u slid (.list items)).gen.remaining
      = items ∧
    (spectrum_identification_list w slid (.list items)).out
      = .ok (.specIdentList slid results) ∧
    (spectrum_identification_list w slid (.list items)).gen.remaining
      = [] ∧
    (spectrum_identification_list w slid (.list items)).gen.consume
      = (.ok [], ⟨[]⟩) := by
  refine ⟨?_, ?_, ?_, ?_, ?_, ?_, ?_⟩
  · simp [spectrum_identification_list, pyIter, componentWrite, hu]
  · simp [ensure_iterable, pyIsIterable, pyIsString, pyIsMapping, pyIter]
  · simp [spectrum_identification_list, pyIter, componentWrite, hu]
  · simp [spectrum_identification_list, pyIter, componentWrite, hu]
  · simp [spectrum_identification_list, pyIter, componentWrite,
      ResGen.consume, hl, h1, h2]
  · simp [spectrum_identification_list, pyIter, componentWrite,
      ResGen.consume, hl, h1, h2]
  · simp [spectrum_identification_list, pyIter, componentWrite,
      ResGen.consume, listMapE, hl, h1, h2]

/-- Witness for C10: a lone two-key mapping on an unentered session and an
empty proper result sequence on an entered one. -/
theorem C10_no_normalisation_witness :
    (MzIdentMLWriter_init []).enter.writerSet = true ∧
    (MzIdentMLWriter_init []).enter.sinkOpen = true ∧
    (MzIdentMLWriter_init []).writerSet = false ∧
    listMapE convertResult [] = .ok [] ∧
    ((spectrum_identification_list (MzIdentMLWriter_init []) (.int 1)
        (.mapping [("a", .int 1), ("b", .int 2)])).gen.remaining
       = [("a", PyVal.int 1), ("b", PyVal.int 2)].map
           (fun kv => .str kv.1) ∧
     pyIter (ensure_iterable (.mapping [("a", .int 1), ("b", .int 2)]))
       = some [.mapping [("a", .int 1), ("b", .int 2)]] ∧
     (spectrum_identification_list (MzIdentMLWriter_init []) (.int 1)
        (.mapping [("a", .int 1)])).gen.remaining
       ≠ [.mapping [("a", .int 1)]] ∧
     (spectrum_identification_list (MzIdentMLWriter_init []) (.int 1)
        (.list [])).gen.remaining = [] ∧
     (spectrum_identification_list (MzIdentMLWriter_init []).enter (.int 1)
        (.list [])).out = .ok (.specIdentList (.int 1) []) ∧
     (spectrum_identification_list (MzIdentMLWriter_init []).enter (.int 1)
        (.list [])).gen.remaining = [] ∧
     (spectrum_identification_list (MzIdentMLWriter_init []).enter (.int 1)
        (.list [])).gen.consume = (.ok [], ⟨[]⟩)) :=
  ⟨rfl, rfl, rfl, rfl,
   C10_spectrum_identification_list_no_normalisation
     (MzIdentMLWriter_init []).enter (MzIdentMLWriter_init []) (.int 1)
     [("a", .int 1), ("b", .int 2)] [] [] rfl rfl rfl rfl⟩
